import Mathlib

/-!
Verification of the Blender Pushover Notifier add-on
(`BlenderPushoverNotifier.py`): a shallow embedding of its three
components — the notification sender, the render-complete dispatcher,
and the interactive test operator — together with theorems settling the
specification's claims about them.

External collaborators are abstracted as explicit parameters:
the HTTP transport (`urllib.request.urlopen` and the surrounding
`try` block) as an `Except String Unit` outcome, the host's network
flag (`bpy.app.online_access`) and document file name
(`bpy.path.basename(bpy.context.blend_data.filepath)`) as plain
arguments, and the background thread as the argument triple it is
started with (`threading.Thread(target=..., args=...)`).
-/

namespace PushoverNotifier

/-- Left brace character, written via its code point. -/
def lbrace : Char := Char.ofNat 123

/-- Right brace character, written via its code point. -/
def rbrace : Char := Char.ofNat 125

/-- A string holding a single left brace. -/
def lbraceS : String := String.singleton lbrace

/-- A string holding a single right brace. -/
def rbraceS : String := String.singleton rbrace

/-- Wrap a string in single quotes, as Python `str(KeyError(k))` and the
format-string error messages do. -/
def pyQuote (s : String) : String :=
  String.singleton (Char.ofNat 39) ++ s ++ String.singleton (Char.ofNat 39)

/-- The error classes Python `str.format` raises on the templates of
this add-on, distinguished because `render_complete_handler` catches
exactly `KeyError`. `unmodelledField` marks the parts of `str.format`
outside the model — attribute access on the string value (bound methods
print memory addresses), `repr` of strings needing escapes, nested
replacement fields beyond a plain name with an optional conversion, and
format specs outside fill/align/width/precision/`s` — all of which the
handler treats the same way as the other non-`KeyError` errors: it does
not catch them. -/
inductive FmtError where
  | keyError (key : String)
  | valueError (msg : String)
  | indexError (msg : String)
  | typeError (msg : String)
  | unmodelledField (field : String)
  deriving DecidableEq, Repr

/-- A character belonging to the first component of a replacement-field
name (everything before the first attribute or index accessor). -/
def isFirstComponentChar (c : Char) : Bool :=
  !(c = '.' || c = '[')

/-- The number denoted by a list of decimal digit characters. -/
def digitsToNat (ds : List Char) : Nat :=
  ds.foldl (fun acc c => acc * 10 + (c.toNat - 48)) 0

/-- Look up the first component of a field name in the arguments of
`template.format(file=fileVal)`: an empty or all-digit component is
positional (no positional arguments are supplied, so `IndexError`), the
key `file` resolves to `fileVal`, and any other key raises `KeyError`.
CPython performs this lookup before validating or applying accessors,
conversions and format specs. -/
def lookupBase (fileVal : String) (first : List Char) : Except FmtError String :=
  if first.isEmpty then
    .error (.indexError "Replacement index 0 out of range for positional args tuple")
  else if first.all Char.isDigit then
    .error (.indexError ("Replacement index " ++
      toString (digitsToNat first) ++
      " out of range for positional args tuple"))
  else if String.mk first = "file" then .ok fileVal
  else .error (.keyError (String.mk first))

/-- State of the accessor-chain walk over the part of a field name after
its first component. -/
inductive AccState where
  | expectAccessor
  | inAttr (acc : List Char)
  | inIndex (acc : List Char)

/-- Apply the accessor chain (`.attr` / `[index]`) of a field name to the
looked-up string value, per CPython: an all-digit index indexes into the
string (a one-character string, or `IndexError` out of range), a
non-digit index is a `TypeError` on a string, an empty attribute or index
is a `ValueError`, only a dot or bracket may follow a closing bracket,
and attribute access on the string value is outside the model. -/
def applyAccessorsGo (value : String) : AccState → List Char → Except FmtError String
  | .expectAccessor, [] => .ok value
  | .expectAccessor, c :: rest =>
    if c = '.' then applyAccessorsGo value (.inAttr []) rest
    else if c = '[' then applyAccessorsGo value (.inIndex []) rest
    else
      .error (.valueError ("Only " ++ pyQuote "." ++ " or " ++ pyQuote "[" ++
        " may follow " ++ pyQuote "]" ++ " in format field specifier"))
  | .inAttr acc, [] =>
    if acc.isEmpty then .error (.valueError "Empty attribute in format string")
    else .error (.unmodelledField (String.mk acc.reverse))
  | .inAttr acc, c :: rest =>
    if c = '.' || c = '[' then
      if acc.isEmpty then .error (.valueError "Empty attribute in format string")
      else .error (.unmodelledField (String.mk acc.reverse))
    else applyAccessorsGo value (.inAttr (c :: acc)) rest
  | .inIndex _, [] =>
    .error (.valueError ("Missing " ++ pyQuote "]" ++ " in format string"))
  | .inIndex acc, c :: rest =>
    if c = ']' then
      let idx := acc.reverse
      if idx.isEmpty then .error (.valueError "Empty attribute in format string")
      else if idx.all Char.isDigit then
        match value.data.get? (digitsToNat idx) with
        | some ch => applyAccessorsGo (String.singleton ch) .expectAccessor rest
        | none => .error (.indexError "string index out of range")
      else
        .error (.typeError ("string indices must be integers, not " ++ pyQuote "str"))
    else applyAccessorsGo value (.inIndex (c :: acc)) rest

/-- Evaluate a field name with no conversion or spec of its own: look up
its first component, then walk its accessor chain. -/
def evalPlainField (fileVal : String) (name : List Char) : Except FmtError String :=
  (lookupBase fileVal (name.takeWhile isFirstComponentChar)).bind fun v =>
    applyAccessorsGo v AccState.expectAccessor (name.dropWhile isFirstComponentChar)

/-- Whether a string is printable ASCII with no quote or backslash, so
that its Python `repr` is just the string wrapped in single quotes. -/
def isPyReprPlain (s : String) : Bool :=
  s.data.all fun c =>
    decide (32 ≤ c.toNat) && decide (c.toNat ≤ 126) &&
      !(c = Char.ofNat 39) && !(c = Char.ofNat 92)

/-- Apply a `!conversion`: `s` is the identity on strings, `r` and `a`
are `repr` (modelled only for strings whose repr needs no escapes), and
any other conversion character is a `ValueError`, validated by CPython
only after the field lookup succeeded. -/
def applyConversion (value : String) : Option Char → Except FmtError String
  | none => .ok value
  | some c =>
    if c = 's' then .ok value
    else if c = 'r' || c = 'a' then
      if isPyReprPlain value then .ok (pyQuote value)
      else .error (.unmodelledField (String.singleton c))
    else .error (.valueError ("Unknown conversion specifier " ++ String.singleton c))

/-- Pad a string with `fill` to `width` according to the alignment
character, with CPython's centring split (extra fill goes to the
right). -/
def padTo (value : String) (fill align : Char) (width : Nat) : String :=
  let len := value.length
  if width ≤ len then value
  else
    let pad := width - len
    if align = '>' then String.mk (List.replicate pad fill) ++ value
    else if align = '^' then
      let left := pad / 2
      String.mk (List.replicate left fill) ++ value ++
        String.mk (List.replicate (pad - left) fill)
    else value ++ String.mk (List.replicate pad fill)

/-- Apply a (fully expanded) format spec to a string value, for the
string subset of the mini-language: `[[fill]align][0][width][.prec][s]`
with align in `<`, `>`, `^` (default left for strings; a leading zero in
the width selects `0` as the fill). Sign, `#`, grouping, `=` alignment
and non-`s` presentation types are errors on strings and lie outside the
model. -/
def applySpec (value : String) (spec : List Char) : Except FmtError String :=
  let isAlignChar : Char → Bool := fun c => c = '<' || c = '>' || c = '^'
  let (fill0, align, rest) :=
    match spec with
    | a :: b :: r =>
      if isAlignChar b then (a, some b, r)
      else if isAlignChar a then ((' ' : Char), some a, b :: r)
      else ((' ' : Char), (none : Option Char), spec)
    | a :: r =>
      if isAlignChar a then ((' ' : Char), some a, r)
      else ((' ' : Char), (none : Option Char), spec)
    | [] => ((' ' : Char), (none : Option Char), ([] : List Char))
  let widthDigits := rest.takeWhile Char.isDigit
  let rest2 := rest.dropWhile Char.isDigit
  let fill := if fill0 = ' ' && widthDigits.head? = some '0' then '0' else fill0
  let width := digitsToNat widthDigits
  let finish : Option Nat → List Char → Except FmtError String := fun prec rest3 =>
    if rest3.isEmpty || rest3 = ['s'] then
      let truncated :=
        match prec with
        | some p => String.mk (value.data.take p)
        | none => value
      .ok (padTo truncated fill (align.getD '<') width)
    else .error (.unmodelledField (String.mk spec))
  match rest2 with
  | '.' :: pr =>
    let precDigits := pr.takeWhile Char.isDigit
    if precDigits.isEmpty then .error (.unmodelledField (String.mk spec))
    else finish (some (digitsToNat precDigits)) (pr.dropWhile Char.isDigit)
  | _ => finish none rest2

/-- One piece of a format spec as scanned: a literal character or a
nested replacement field with its raw characters. -/
inductive SpecItem where
  | lit (c : Char)
  | field (inner : List Char)
  deriving DecidableEq, Repr

/-- Resolve one nested replacement field of a format spec: a plain name
with an optional `!conversion`, looked up with the same rules as an outer
field (so a missing key is a caught `KeyError`, matching CPython); deeper
nesting is outside the model. -/
def resolveNestedInner (fileVal : String) (inner : List Char) : Except FmtError String :=
  let namePart := inner.takeWhile (fun c => !(c = '!'))
  let convPart := inner.dropWhile (fun c => !(c = '!'))
  match convPart with
  | [] => evalPlainField fileVal namePart
  | [_, c] => (evalPlainField fileVal namePart).bind fun v => applyConversion v (some c)
  | _ => .error (.unmodelledField (String.mk inner))

/-- Expand the scanned spec items left to right into the concrete spec
string, resolving nested replacement fields. -/
def resolveSpecItems (fileVal : String) : List SpecItem → Except FmtError String
  | [] => .ok ""
  | .lit c :: rest =>
    (resolveSpecItems fileVal rest).map (fun s => String.singleton c ++ s)
  | .field inner :: rest =>
    (resolveNestedInner fileVal inner).bind fun v =>
      (resolveSpecItems fileVal rest).map (fun s => v ++ s)

/-- Evaluate one parsed replacement field in CPython's order: look up the
name's first component, apply accessors, apply the conversion, expand the
spec's nested fields, then apply the spec. -/
def evalField (fileVal : String) (name : List Char) (conv : Option Char)
    (spec : List SpecItem) : Except FmtError String :=
  (evalPlainField fileVal name).bind fun v1 =>
    (applyConversion v1 conv).bind fun v2 =>
      (resolveSpecItems fileVal spec).bind fun specStr =>
        applySpec v2 specStr.data

/-- Scanner state for the format-string parser: literal text, a field
name (with a bracketed-index sub-state in which braces, colons and bangs
are ordinary characters), the conversion after `!`, the format spec, or
a nested replacement field inside the spec. Accumulators are reversed. -/
inductive FmtState where
  | normal
  | inName (acc : List Char)
  | inNameBracket (acc : List Char)
  | afterBang (name : List Char)
  | afterConv (name : List Char) (conv : Char)
  | inSpec (name : List Char) (conv : Option Char) (spec : List SpecItem)
  | inSpecNested (name : List Char) (conv : Option Char) (spec : List SpecItem)
      (inner : List Char)

/-- One pass of Python `str.format` over the template: doubled braces are
escapes, a brace inside a field name is an error, brackets protect their
contents, `!c` must be followed by a brace or colon, and the spec runs to
the closing brace with one level of nested fields; fields are evaluated,
and errors raised, left to right as encountered, matching CPython. -/
def pyFormatGo (fileVal : String) : FmtState → List Char → Except FmtError String
  | .normal, [] => .ok ""
  | .normal, c :: rest =>
    if c = lbrace then
      match rest with
      | d :: rest2 =>
        if d = lbrace then
          (pyFormatGo fileVal .normal rest2).map (fun s => lbraceS ++ s)
        else
          pyFormatGo fileVal (.inName []) (d :: rest2)
      | [] =>
        .error (.valueError ("Single " ++ pyQuote lbraceS ++ " encountered in format string"))
    else if c = rbrace then
      match rest with
      | d :: rest2 =>
        if d = rbrace then
          (pyFormatGo fileVal .normal rest2).map (fun s => rbraceS ++ s)
        else
          .error (.valueError ("Single " ++ pyQuote rbraceS ++ " encountered in format string"))
      | [] =>
        .error (.valueError ("Single " ++ pyQuote rbraceS ++ " encountered in format string"))
    else
      (pyFormatGo fileVal .normal rest).map (fun s => String.singleton c ++ s)
  | .inName _, [] =>
    .error (.valueError ("expected " ++ pyQuote rbraceS ++ " before end of string"))
  | .inName acc, c :: rest =>
    if c = rbrace then
      (evalField fileVal acc.reverse none []).bind fun v =>
        (pyFormatGo fileVal .normal rest).map (fun s => v ++ s)
    else if c = lbrace then
      .error (.valueError ("unexpected " ++ pyQuote lbraceS ++ " in field name"))
    else if c = '!' then pyFormatGo fileVal (.afterBang acc) rest
    else if c = ':' then pyFormatGo fileVal (.inSpec acc none []) rest
    else if c = '[' then pyFormatGo fileVal (.inNameBracket (c :: acc)) rest
    else pyFormatGo fileVal (.inName (c :: acc)) rest
  | .inNameBracket _, [] =>
    .error (.valueError ("expected " ++ pyQuote rbraceS ++ " before end of string"))
  | .inNameBracket acc, c :: rest =>
    if c = ']' then pyFormatGo fileVal (.inName (c :: acc)) rest
    else pyFormatGo fileVal (.inNameBracket (c :: acc)) rest
  | .afterBang _, [] =>
    .error (.valueError "end of string while looking for conversion specifier")
  | .afterBang name, c :: rest => pyFormatGo fileVal (.afterConv name c) rest
  | .afterConv _ _, [] =>
    .error (.valueError ("unmatched " ++ pyQuote lbraceS ++ " in format spec"))
  | .afterConv name conv, c :: rest =>
    if c = rbrace then
      (evalField fileVal name.reverse (some conv) []).bind fun v =>
        (pyFormatGo fileVal .normal rest).map (fun s => v ++ s)
    else if c = ':' then pyFormatGo fileVal (.inSpec name (some conv) []) rest
    else .error (.valueError ("expected " ++ pyQuote ":" ++ " after conversion specifier"))
  | .inSpec _ _ _, [] =>
    .error (.valueError ("unmatched " ++ pyQuote lbraceS ++ " in format spec"))
  | .inSpec name conv spec, c :: rest =>
    if c = rbrace then
      (evalField fileVal name.reverse conv spec.reverse).bind fun v =>
        (pyFormatGo fileVal .normal rest).map (fun s => v ++ s)
    else if c = lbrace then pyFormatGo fileVal (.inSpecNested name conv spec []) rest
    else pyFormatGo fileVal (.inSpec name conv (SpecItem.lit c :: spec)) rest
  | .inSpecNested _ _ _ _, [] =>
    .error (.valueError ("unmatched " ++ pyQuote lbraceS ++ " in format spec"))
  | .inSpecNested name conv spec inner, c :: rest =>
    if c = rbrace then
      pyFormatGo fileVal (.inSpec name conv (SpecItem.field inner.reverse :: spec)) rest
    else if c = lbrace || c = ':' then
      .error (.unmodelledField (String.mk inner.reverse))
    else pyFormatGo fileVal (.inSpecNested name conv spec (c :: inner)) rest

/-- Python `template.format(file=fileVal)` as used on
`pushover_props.message_format`. -/
def pyFormat (template fileVal : String) : Except FmtError String :=
  pyFormatGo fileVal .normal template.data

/-- The outcome of `send_pushover_notification`: the returned
`(bool, str)` pair, how many network requests were issued, and the lines
printed to the process log. -/
structure SendOutcome where
  result : Bool × String
  network_calls : Nat
  logs : List String
  deriving DecidableEq, Repr

/-- `send_pushover_notification(user_key, api_token, message)`. The
`transport` argument abstracts the `try` block around
`urllib.request.urlopen`: `ok` for a request that completes without
error, `error e` for any raised exception with description `e`
(transport, DNS, TLS, or the `HTTPError` of a non-2xx response). The
function is total: every path returns a `SendOutcome`, no exception
escapes. -/
def send_pushover_notification (transport : Except String Unit)
    (user_key api_token message : String) : SendOutcome :=
  if user_key = "" ∨ api_token = "" then
    let error_msg := "User Key or API Token not set."
    ⟨(false, error_msg), 0, ["Pushover Notifier: " ++ error_msg]⟩
  else
    match transport with
    | .ok _ =>
      ⟨(true, "Notification sent successfully!"), 1,
        ["Pushover Notifier: Notification sent successfully."]⟩
    | .error e =>
      let error_msg := "Failed to send notification. Error: " ++ e
      ⟨(false, error_msg), 1, ["Pushover Notifier: " ++ error_msg]⟩

/-- The scene's `pushover_notifier` property group
(`PushoverNotifierProperties`). -/
structure PushoverNotifierProperties where
  is_enabled : Bool
  user_key : String
  api_token : String
  message_format : String
  deriving DecidableEq, Repr

/-- The argument triple a spawned notification thread is started with:
`threading.Thread(target=send_pushover_notification, args=(user_key, api_token, message))`. -/
structure ThreadArgs where
  user_key : String
  api_token : String
  message : String
  deriving DecidableEq, Repr

/-- What one invocation of `render_complete_handler` did: the lines it
printed and the thread it started, if any. -/
structure HandlerResult where
  logs : List String
  spawned : Option ThreadArgs
  deriving DecidableEq, Repr

/-- Resolution of the blend file name (lines 60-62 of the source): the
basename of the document's file path, or `"Unsaved File"` when it is
empty (the document was never saved). -/
def resolveBlendFileName (filepath_basename : String) : String :=
  if filepath_basename = "" then "Unsaved File" else filepath_basename

/-- `render_complete_handler(scene)`. `online_access` is
`bpy.app.online_access`; `filepath_basename` is
`bpy.path.basename(bpy.context.blend_data.filepath)`. An `.error` value
is an exception propagating out of the handler: the source catches only
`KeyError` around `message_format.format(file=...)`. -/
def render_complete_handler (online_access : Bool) (filepath_basename : String)
    (props : PushoverNotifierProperties) : Except FmtError HandlerResult :=
  if props.is_enabled = false then
    .ok ⟨["Pushover Notifier: Disabled, notification not sent."], none⟩
  else if online_access = false then
    .ok ⟨["Pushover Notifier: Blender is running in offline mode."], none⟩
  else
    let blend_file_name := resolveBlendFileName filepath_basename
    match pyFormat props.message_format blend_file_name with
    | .ok message =>
      .ok ⟨[], some ⟨props.user_key, props.api_token, message⟩⟩
    | .error (.keyError k) =>
      .ok ⟨["Pushover Notifier: Error formatting message. Invalid key: " ++ pyQuote k],
        some ⟨props.user_key, props.api_token,
          "Blender render finished for: " ++ blend_file_name ++ " (Message format error)"⟩⟩
    | .error e => .error e

/-- How many sends an invocation of the handler initiated (its spawned
thread calls `send_pushover_notification` once). -/
def sends_initiated : Except FmtError HandlerResult → Nat
  | .ok ⟨_, some _⟩ => 1
  | _ => 0

/-- The thread arguments an invocation of the handler captured, if it
started a thread. -/
def spawn_args : Except FmtError HandlerResult → Option ThreadArgs
  | .ok r => r.spawned
  | .error _ => none

/-- The lines an invocation of the handler printed (none when an
exception escaped). -/
def handler_logs : Except FmtError HandlerResult → List String
  | .ok r => r.logs
  | .error _ => []

/-- Report level of `Operator.report`. -/
inductive ReportLevel where
  | INFO
  | ERROR
  deriving DecidableEq, Repr

/-- The result of `PUSHOVER_OT_TestNotification.poll`: whether the
operator is permitted, and the poll message set when it is not. -/
structure PollResult where
  permitted : Bool
  poll_message : Option String
  deriving DecidableEq, Repr

/-- The result of `PUSHOVER_OT_TestNotification.execute`: the report
emitted to the user and the returned operator status. -/
structure ExecuteResult where
  report : ReportLevel × String
  status : String
  deriving DecidableEq, Repr

/-- `PUSHOVER_OT_TestNotification.poll(context)`. -/
def PUSHOVER_OT_TestNotification_poll (online_access : Bool) : PollResult :=
  if online_access then ⟨true, none⟩
  else ⟨false, some "Blender is running in offline mode"⟩

/-- The fixed test message built inside
`PUSHOVER_OT_TestNotification.execute`. -/
def test_notification_message : String :=
  "This is a test notification from the Blender Pushover Addon."

/-- `PUSHOVER_OT_TestNotification.execute(context)`: calls the sender
synchronously with the scene's credentials and the fixed test message and
reports the outcome. -/
def PUSHOVER_OT_TestNotification_execute (transport : Except String Unit)
    (props : PushoverNotifierProperties) : ExecuteResult :=
  let r := send_pushover_notification transport props.user_key props.api_token
    test_notification_message
  if r.result.1 then ⟨(ReportLevel.INFO, r.result.2), "FINISHED"⟩
  else ⟨(ReportLevel.ERROR, r.result.2), "FINISHED"⟩

/-- The host's operator contract (Blender API): an operator's `execute`
body runs only when its `poll` classmethod returns true; a disabled
operator is never invoked. -/
def host_invoke_test_operator (online_access : Bool) (transport : Except String Unit)
    (props : PushoverNotifierProperties) : Option ExecuteResult :=
  if (PUSHOVER_OT_TestNotification_poll online_access).permitted then
    some (PUSHOVER_OT_TestNotification_execute transport props)
  else
    none

/-- Calibration of the `str.format` model against CPython on the
boundary templates: a brace inside a field name is an uncaught
`ValueError`; accessor fields on a missing key fail the lookup first and
are caught `KeyError`s; conversion and alignment specs on the `file` key
format successfully; indexing the file name yields its character. -/
theorem pyFormat_calibration :
    pyFormat (lbraceS ++ "a" ++ lbraceS ++ "b" ++ rbraceS) "x" =
      Except.error (FmtError.valueError
        ("unexpected " ++ pyQuote lbraceS ++ " in field name")) ∧
    pyFormat (lbraceS ++ "bogus.attr" ++ rbraceS) "x" =
      Except.error (FmtError.keyError "bogus") ∧
    pyFormat (lbraceS ++ "bogus[0]" ++ rbraceS) "x" =
      Except.error (FmtError.keyError "bogus") ∧
    pyFormat (lbraceS ++ "file!r" ++ rbraceS) "scene1.blend" =
      Except.ok (pyQuote "scene1.blend") ∧
    pyFormat (lbraceS ++ "file:>20" ++ rbraceS) "scene1.blend" =
      Except.ok "        scene1.blend" ∧
    pyFormat (lbraceS ++ "file[0]" ++ rbraceS) "scene1.blend" = Except.ok "s" :=
  ⟨rfl, rfl, rfl, rfl, rfl, rfl⟩

/-- Claim C1: for every call `send(userKey, apiToken, message)` where
`userKey` or `apiToken` is empty, `send` returns Failure with exactly the
message "User Key or API Token not set." and performs no network call. -/
theorem C1_send_empty_credentials_fails (transport : Except String Unit)
    (user_key api_token message : String) (h : user_key = "" ∨ api_token = "") :
    send_pushover_notification transport user_key api_token message =
      ⟨(false, "User Key or API Token not set."), 0,
        ["Pushover Notifier: User Key or API Token not set."]⟩ := by
  unfold send_pushover_notification
  rw [if_pos h]
  rfl

/-- Witness for C1 at a concrete input: empty user key, transport would
have succeeded, yet the call fails without a network request. -/
theorem C1_witness :
    send_pushover_notification (Except.ok ()) "" "token123" "hello" =
      ⟨(false, "User Key or API Token not set."), 0,
        ["Pushover Notifier: User Key or API Token not set."]⟩ :=
  C1_send_empty_credentials_fails (Except.ok ()) "" "token123" "hello" (Or.inl rfl)

/-- Claim C2: with non-empty credentials, any error raised by the HTTP
request is caught and mapped to Failure with the text
"Failed to send notification. Error: <description>"; `send` is total, so
no exception propagates to its caller. -/
theorem C2_send_transport_error_maps_to_failure (e user_key api_token message : String)
    (h1 : user_key ≠ "") (h2 : api_token ≠ "") :
    send_pushover_notification (Except.error e) user_key api_token message =
      ⟨(false, "Failed to send notification. Error: " ++ e), 1,
        ["Pushover Notifier: Failed to send notification. Error: " ++ e]⟩ := by
  unfold send_pushover_notification
  rw [if_neg (not_or.mpr ⟨h1, h2⟩)]
  rfl

/-- Witness for C2 at a concrete input: a transport error with
description "timed out". -/
theorem C2_witness :
    send_pushover_notification (Except.error "timed out") "user1" "token1" "hello" =
      ⟨(false, "Failed to send notification. Error: timed out"), 1,
        ["Pushover Notifier: Failed to send notification. Error: timed out"]⟩ :=
  C2_send_transport_error_maps_to_failure "timed out" "user1" "token1" "hello"
    (by decide) (by decide)

/-- Claim C4: with non-empty credentials and an HTTP request that
completes without error, `send` returns Success with exactly the message
"Notification sent successfully!". -/
theorem C4_send_success (user_key api_token message : String)
    (h1 : user_key ≠ "") (h2 : api_token ≠ "") :
    send_pushover_notification (Except.ok ()) user_key api_token message =
      ⟨(true, "Notification sent successfully!"), 1,
        ["Pushover Notifier: Notification sent successfully."]⟩ := by
  unfold send_pushover_notification
  rw [if_neg (not_or.mpr ⟨h1, h2⟩)]

/-- Witness for C4 at a concrete input. -/
theorem C4_witness :
    send_pushover_notification (Except.ok ()) "user1" "token1" "hello" =
      ⟨(true, "Notification sent successfully!"), 1,
        ["Pushover Notifier: Notification sent successfully."]⟩ :=
  C4_send_success "user1" "token1" "hello" (by decide) (by decide)

/-- Claim C5: when the enablement flag is false or the host reports
network access disabled, the dispatcher spawns no thread, initiates no
send, and returns after printing exactly one log line. -/
theorem C5_disabled_or_offline_no_send (online_access : Bool) (fp : String)
    (props : PushoverNotifierProperties)
    (h : props.is_enabled = false ∨ online_access = false) :
    spawn_args (render_complete_handler online_access fp props) = none ∧
    sends_initiated (render_complete_handler online_access fp props) = 0 ∧
    (handler_logs (render_complete_handler online_access fp props)).length = 1 := by
  have hmain : ∃ logLine, render_complete_handler online_access fp props =
      Except.ok ⟨[logLine], none⟩ := by
    rcases h with h | h
    · exact ⟨"Pushover Notifier: Disabled, notification not sent.",
        by simp [render_complete_handler, h]⟩
    · subst h
      by_cases hEn : props.is_enabled = false
      · exact ⟨"Pushover Notifier: Disabled, notification not sent.",
          by simp [render_complete_handler, hEn]⟩
      · exact ⟨"Pushover Notifier: Blender is running in offline mode.",
          by simp [render_complete_handler, hEn]⟩
  obtain ⟨l, hl⟩ := hmain
  rw [hl]
  exact ⟨rfl, rfl, rfl⟩

/-- Witness for C5 at a concrete input: notifier disabled, network
available, no send. -/
theorem C5_witness :
    spawn_args (render_complete_handler true "scene1.blend"
      ⟨false, "user1", "token1", "x"⟩) = none ∧
    sends_initiated (render_complete_handler true "scene1.blend"
      ⟨false, "user1", "token1", "x"⟩) = 0 ∧
    (handler_logs (render_complete_handler true "scene1.blend"
      ⟨false, "user1", "token1", "x"⟩)).length = 1 :=
  C5_disabled_or_offline_no_send true "scene1.blend"
    ⟨false, "user1", "token1", "x"⟩ (Or.inl rfl)

/-- Claim C7: the file name of a never-saved document resolves to
"Unsaved File", and the template "Render done: \x7bfile\x7d" with file
name "scene1.blend" formats to exactly "Render done: scene1.blend". -/
theorem C7_filename_resolution_and_format :
    resolveBlendFileName "" = "Unsaved File" ∧
    pyFormat ("Render done: " ++ lbraceS ++ "file" ++ rbraceS) "scene1.blend" =
      Except.ok "Render done: scene1.blend" :=
  ⟨rfl, rfl⟩

/-- Claim C8: the test operator's poll permits the action if and only if
the host reports network access available; when unavailable the poll
message "Blender is running in offline mode" is set and the host never
runs the execute body. -/
theorem C8_poll_gates_on_online_access (online_access : Bool)
    (transport : Except String Unit) (props : PushoverNotifierProperties) :
    (PUSHOVER_OT_TestNotification_poll online_access).permitted = online_access ∧
    (PUSHOVER_OT_TestNotification_poll false).poll_message =
      some "Blender is running in offline mode" ∧
    host_invoke_test_operator false transport props = none := by
  refine ⟨?_, rfl, rfl⟩
  cases online_access <;> rfl

/-- Claim C9: on every invocation, the test operator calls the sender
with the scene's current credentials and the fixed literal test message
(not the user's template), and reports the result verbatim: an INFO
report with the success text on success, an ERROR report with the failure
reason on failure. -/
theorem C9_execute_reports_send_result (transport : Except String Unit)
    (props : PushoverNotifierProperties) :
    PUSHOVER_OT_TestNotification_execute transport props =
      ⟨((if (send_pushover_notification transport props.user_key props.api_token
              test_notification_message).result.1
          then ReportLevel.INFO else ReportLevel.ERROR),
        (send_pushover_notification transport props.user_key props.api_token
          test_notification_message).result.2), "FINISHED"⟩ := by
  cases hb : (send_pushover_notification transport props.user_key props.api_token
      test_notification_message).result.1 <;>
    simp [PUSHOVER_OT_TestNotification_execute, hb]

/-- Claim C10: whatever the outcome of the send attempt, the test
operator's execute returns the FINISHED status; a failed test never
cancels, aborts or raises. -/
theorem C10_execute_always_finished (transport : Except String Unit)
    (props : PushoverNotifierProperties) :
    (PUSHOVER_OT_TestNotification_execute transport props).status = "FINISHED" := by
  cases hb : (send_pushover_notification transport props.user_key props.api_token
      test_notification_message).result.1 <;>
    simp [PUSHOVER_OT_TestNotification_execute, hb]

end PushoverNotifier
